import Mathlib

/-!
Shallow embedding of the periodic-advertising synchronization manager
`subsys/bluetooth/controller/ll_sw/ull_sync.c` (Zephyr BLE controller).

The host-facing operations (`ll_sync_create`, `ll_sync_create_cancel`,
`ll_sync_terminate`, `ll_sync_recv_enable`), the establishment path
(`ull_sync_setup`), the per-event supervision engine (`ull_sync_done`) and
the channel-map update procedure (`ull_sync_chm_update`) are translated as
pure functions over an explicit controller state.  External collaborators
(rx-buffer allocator, ticker scheduler, clock/PHY helpers) are modelled at
their interface boundary: allocators as counters, the ticker as a set of
running ticker ids, opaque numeric helpers as an `ExtEnv` record of
uninterpreted functions.  Side effects that matter for ordering claims
(notification enqueue, ticker start/stop, memory barrier, releases) are
recorded in an explicit effect trace.  uint32 arithmetic that may wrap is
taken modulo 2^32; uint8/uint16 fields are reduced modulo 256/65536 where
the source relies on their width.
-/

/-! ## Constants from the source and its headers -/

def BT_HCI_ERR_SUCCESS : Nat := 0x00
def BT_HCI_ERR_MEM_CAPACITY_EXCEEDED : Nat := 0x07
def BT_HCI_ERR_CMD_DISALLOWED : Nat := 0x0C
def BT_HCI_ERR_UNKNOWN_ADV_IDENTIFIER : Nat := 0x42
def BT_HCI_ERR_OP_CANCELLED_BY_HOST : Nat := 0x44

def SCAN_HANDLE_1M : Nat := 0
def SCAN_HANDLE_PHY_CODED : Nat := 1
def LL_SYNC_STATE_IDLE : Nat := 0
def BDADDR_SIZE : Nat := 6

/-- node_rx type tag for an established-sync notification (enum value opaque). -/
def NODE_RX_TYPE_SYNC : Nat := 20
/-- node_rx type tag for a sync-lost notification (enum value opaque). -/
def NODE_RX_TYPE_SYNC_LOST : Nat := 21

def CONN_INT_UNIT_US : Nat := 1250
def PDU_SYNC_INFO_SCA_CHM_SCA_BYTE_OFFSET : Nat := 4
def PDU_SYNC_INFO_SCA_CHM_SCA_BIT_POS : Nat := 5
def DOUBLE_BUFFER_SIZE : Nat := 2
def BT_DATA_CHANNEL_MAP_UPDATE_IND : Nat := 0x28
/-- sizeof(struct pdu_adv_sync_chm_upd_ind) = 5 (chm) + 2 (instant). -/
def pdu_adv_sync_chm_upd_ind_size : Nat := 7
def OFFS_UNIT_30_US : Nat := 30
def OFFS_UNIT_300_US : Nat := 300
def OFFS_ADJUST_US : Nat := 2457600

/-- Base id of the periodic-sync ticker nodes; opaque external constant. -/
def TICKER_ID_SCAN_SYNC_BASE : Nat := 0

def EALREADY : Int := 114

/-- Configuration choice: CONFIG_BT_CTLR_PHY_CODED is taken as enabled, so the
dual-PHY branches of the source are part of the model. -/
def IS_ENABLED_PHY_CODED : Bool := true

/-- Configuration choice: CONFIG_BT_CTLR_LOW_LAT is taken as disabled. -/
def IS_ENABLED_LOW_LAT : Bool := false

/-! ## Byte-level helpers -/

/-- Number of one bits in a byte (bytes are < 256, eight bit positions). -/
def bitCount (b : Nat) : Nat :=
  b % 2 + b / 2 % 2 + b / 4 % 2 + b / 8 % 2 +
  b / 16 % 2 + b / 32 % 2 + b / 64 % 2 + b / 128 % 2

/-- `util_ones_count_get(map, len)`: popcount over a byte array. -/
def util_ones_count_get (bytes : List Nat) : Nat :=
  (bytes.map bitCount).sum

/-- Read `n` bytes starting at offset `off` (memcpy of a byte region; reads
beyond the given list take 0, values are reduced to byte range). -/
def bytesAt (xs : List Nat) (off n : Nat) : List Nat :=
  (List.range n).map (fun k => xs.getD (off + k) 0 % 256)

def sys_le16_to_cpu (x : Nat) : Nat := x % 65536

/-- uint32 truncation. -/
def u32 (x : Nat) : Nat := x % 4294967296

/-- uint32 subtraction with wrap-around. -/
def u32sub (a b : Nat) : Nat := (a % 4294967296 + 4294967296 - b % 4294967296) % 4294967296

/-- Modelled from the spec: `RADIO_SYNC_EVENTS` is an external helper macro
(not part of this unit); per the spec it rounds the timeout duration up to a
whole number of periodic intervals, with a minimum of 1. -/
def RADIO_SYNC_EVENTS (timeout_us interval_us : Nat) : Nat :=
  max 1 ((timeout_us + interval_us - 1) / interval_us)

/-! ## Data model -/

/-- One buffered channel-map entry: byte map plus derived usable count. -/
structure ChmEntry where
  data_chan_map : List Nat
  data_chan_count : Nat
deriving DecidableEq, Inhabited

/-- The double-buffered channel-map store (DOUBLE_BUFFER_SIZE = 2 entries). -/
structure ChmStore where
  e0 : ChmEntry
  e1 : ChmEntry
deriving DecidableEq, Inhabited

def ChmStore.get (c : ChmStore) (i : Nat) : ChmEntry :=
  if i = 0 then c.e0 else c.e1

def ChmStore.set (c : ChmStore) (i : Nat) (v : ChmEntry) : ChmStore :=
  if i = 0 then { c with e0 := v } else { c with e1 := v }

/-- struct lll_sync: the lower-link-layer half of a sync context. -/
structure LllSync where
  skip_prepare : Nat
  skip_event : Nat
  window_widening_prepare_us : Nat
  window_widening_event_us : Nat
  window_widening_periodic_us : Nat
  window_widening_max_us : Nat
  window_size_event_us : Nat
  is_rx_enabled : Nat
  access_addr : List Nat
  data_chan_id : Nat
  crc_init : List Nat
  event_counter : Nat
  phy : Nat
  chm : ChmStore
  chm_first : Nat
  chm_last : Nat
  chm_instant : Nat
deriving DecidableEq, Inhabited

/-- The ull header timing fields written by `ull_sync_setup`. -/
structure UllHdr where
  ticks_active_to_start : Nat
  ticks_prepare_to_start : Nat
  ticks_preempt_to_start : Nat
  ticks_slot : Nat
deriving DecidableEq, Inhabited

/-- struct ll_sync_set.  `node_rx_lost_link` models
`sync->node_rx_lost.hdr.link`, the transport link of the pre-allocated
loss-notification buffer. -/
structure SyncSet where
  skip : Nat
  timeout : Nat
  timeout_reload : Nat
  timeout_expire : Nat
  node_rx_lost_link : Option Nat
  ull : UllHdr
  lll : LllSync
deriving DecidableEq, Inhabited

/-- The per-PHY pending-sync fields of a scan context (`scan->per_scan`).
`sync` holds the pool index of the pending sync context;
`node_rx_estab` holds (node id, its transport link id) of the borrowed
establishment notification buffer. -/
structure PerScan where
  sync : Option Nat
  state : Nat
  filter_policy : Nat
  sid : Nat
  adv_addr_type : Nat
  adv_addr : List Nat
  node_rx_estab : Option (Nat × Nat)
deriving DecidableEq, Inhabited

structure ScanSet where
  per_scan : PerScan
deriving DecidableEq, Inhabited

/-- The notification-transport allocator (`ll_rx_link_alloc`/`ll_rx_alloc`
and their releases), modelled at the interface boundary as free counters
plus fresh-id counters. -/
structure RxEnv where
  freeLinks : Nat
  nextLink : Nat
  freeNodes : Nat
  nextNode : Nat
deriving DecidableEq, Inhabited

/-- Whole-controller state visible to this unit: the two scan contexts, the
sync pool (`ll_sync_pool`) with its free list (`sync_free`), the rx
allocator, and the set of running ticker ids (external scheduler state). -/
structure CtlrState where
  scan1m : ScanSet
  scanCoded : ScanSet
  pool : List SyncSet
  free : List Nat
  env : RxEnv
  activeTickers : List Nat
deriving DecidableEq, Inhabited

/-- Host-visible content of an outbound notification node. -/
structure NodeRxOut where
  type : Nat
  handle : Nat
  status : Nat
  interval : Nat
  phy : Nat
  sca : Nat
deriving DecidableEq, Inhabited

/-- Observable side effects, in program order. -/
inductive Effect where
  | clearPendingSync (scanId : Nat)
  | dmb
  | readTimeoutReload (v : Nat)
  | rxLinkRelease (link : Nat)
  | rxRelease (node : Nat)
  | rxPut (link : Nat) (node : NodeRxOut)
  | rxSched
  | tickerStart (id anchor offs itv slot : Nat)
  | tickerStop (id : Nat)
deriving DecidableEq

/-- The ticker id carried by a `tickerStart` effect, if the effect is one. -/
def tickerStartIdOf : Effect → Option Nat := fun e =>
  match e with
  | Effect.tickerStart tid _ _ _ _ => some tid
  | _ => none

/-- The remote sync descriptor (struct pdu_adv_sync_info). -/
structure SyncInfo where
  sca_chm : List Nat
  aa : List Nat
  crc_init : List Nat
  evt_cntr : Nat
  interval : Nat
  offs : Nat
  offs_units : Bool
  offs_adjust : Bool
deriving DecidableEq, Inhabited

/-- Receive-event metadata of the triggering reception (node_rx_ftr). -/
structure Ftr where
  ticks_anchor : Nat
  radio_end_us : Nat
  phy_flags : Nat
deriving DecidableEq, Inhabited

/-- Opaque external helpers and vendor/HAL constants used by
`ull_sync_setup`, passed in uninterpreted. -/
structure ExtEnv where
  lll_clock_ppm_local_get : Nat
  lll_clock_ppm_get : Nat → Nat
  lll_radio_rx_ready_delay_get : Nat → Nat → Nat
  lll_chan_id : List Nat → Nat
  pdu_ac_us : Nat → Nat → Nat → Nat
  pdu_ac_max_us : Nat → Nat → Nat
  hal_ticker_us_to_ticks : Nat → Nat
  hal_ticker_remainder : Nat → Nat
  EVENT_IFS_US : Nat
  EVENT_TICKER_RES_MARGIN_US : Nat
  EVENT_JITTER_US : Nat
  EVENT_OVERHEAD_XTAL_US : Nat
  EVENT_OVERHEAD_PREEMPT_MIN_US : Nat
  EVENT_OVERHEAD_START_US : Nat
  EVENT_OVERHEAD_END_US : Nat
  PDU_AC_EXT_PAYLOAD_SIZE_MAX : Nat

/-! ## State accessors -/

def getScan (st : CtlrState) (scanId : Nat) : ScanSet :=
  if scanId = SCAN_HANDLE_1M then st.scan1m else st.scanCoded

def setScanSync (st : CtlrState) (scanId : Nat) (v : Option Nat) : CtlrState :=
  if scanId = SCAN_HANDLE_1M then
    { st with scan1m := { per_scan := { st.scan1m.per_scan with sync := v } } }
  else
    { st with scanCoded := { per_scan := { st.scanCoded.per_scan with sync := v } } }

def getSync (st : CtlrState) (i : Nat) : SyncSet :=
  st.pool.getD i default

def setSync (st : CtlrState) (i : Nat) (v : SyncSet) : CtlrState :=
  { st with pool := st.pool.set i v }

/-! ## External rx allocator (interface model) -/

def ll_rx_link_alloc (e : RxEnv) : Option Nat × RxEnv :=
  if e.freeLinks = 0 then (none, e)
  else (some e.nextLink,
        { e with freeLinks := e.freeLinks - 1, nextLink := e.nextLink + 1 })

def ll_rx_link_release (e : RxEnv) (_link : Nat) : RxEnv :=
  { e with freeLinks := e.freeLinks + 1 }

def ll_rx_alloc (e : RxEnv) : Option Nat × RxEnv :=
  if e.freeNodes = 0 then (none, e)
  else (some e.nextNode,
        { e with freeNodes := e.freeNodes - 1, nextNode := e.nextNode + 1 })

def ll_rx_release (e : RxEnv) (_node : Nat) : RxEnv :=
  { e with freeNodes := e.freeNodes + 1 }

/-! ## ll_sync_create -/

/-- `ll_sync_create` (ull_sync.c:75).  Returns (HCI status, new state).
The `ull_hdr_init`/`lll_hdr_init` calls initialize reference-count/parent
fields that live outside the modelled state. -/
def ll_sync_create (st : CtlrState) (options sid adv_addr_type : Nat)
    (adv_addr : List Nat) (skip sync_timeout _sync_cte_type : Nat) :
    Nat × CtlrState :=
  let scan := getScan st SCAN_HANDLE_1M
  if scan.per_scan.sync.isSome then (BT_HCI_ERR_CMD_DISALLOWED, st) else
  let scan_coded := getScan st SCAN_HANDLE_PHY_CODED
  if IS_ENABLED_PHY_CODED && scan_coded.per_scan.sync.isSome then
    (BT_HCI_ERR_CMD_DISALLOWED, st)
  else
    match ll_rx_link_alloc st.env with
    | (none, env) => (BT_HCI_ERR_MEM_CAPACITY_EXCEEDED, { st with env := env })
    | (some link_sync_estab, env) =>
      match ll_rx_link_alloc env with
      | (none, env) =>
        let env := ll_rx_link_release env link_sync_estab
        (BT_HCI_ERR_MEM_CAPACITY_EXCEEDED, { st with env := env })
      | (some link_sync_lost, env) =>
        match ll_rx_alloc env with
        | (none, env) =>
          let env := ll_rx_link_release env link_sync_lost
          let env := ll_rx_link_release env link_sync_estab
          (BT_HCI_ERR_MEM_CAPACITY_EXCEEDED, { st with env := env })
        | (some node_rx, env) =>
          match st.free with
          | [] =>
            let env := ll_rx_release env node_rx
            let env := ll_rx_link_release env link_sync_lost
            let env := ll_rx_link_release env link_sync_estab
            (BT_HCI_ERR_MEM_CAPACITY_EXCEEDED, { st with env := env })
          | i :: free' =>
            let sync := getSync st i
            -- node_rx->link = link_sync_estab; per_scan setup
            let ps : PerScan := { scan.per_scan with
              node_rx_estab := some (node_rx, link_sync_estab),
              state := LL_SYNC_STATE_IDLE,
              filter_policy := options % 2 }
            let psc : PerScan := if IS_ENABLED_PHY_CODED then
                { scan_coded.per_scan with
                  state := LL_SYNC_STATE_IDLE,
                  node_rx_estab := ps.node_rx_estab,
                  filter_policy := ps.filter_policy }
              else scan_coded.per_scan
            let ps : PerScan := if ps.filter_policy = 0 then
                { ps with sid := sid, adv_addr_type := adv_addr_type,
                          adv_addr := bytesAt adv_addr 0 BDADDR_SIZE }
              else ps
            let psc : PerScan := if ps.filter_policy = 0 then
                (if IS_ENABLED_PHY_CODED then
                  { psc with sid := sid, adv_addr_type := adv_addr_type,
                             adv_addr := bytesAt adv_addr 0 BDADDR_SIZE }
                 else psc)
              else psc
            -- initialize sync context
            let sync := { sync with
              skip := skip,
              timeout := sync_timeout,
              timeout_reload := 0,
              timeout_expire := 0,
              node_rx_lost_link := some link_sync_lost,
              lll := { sync.lll with
                skip_prepare := 0,
                skip_event := 0,
                window_widening_prepare_us := 0,
                window_widening_event_us := 0,
                -- is_rx_enabled = options & BIT(1)
                is_rx_enabled := options / 2 % 2 * 2 } }
            -- enable scanner to create sync
            let ps := { ps with sync := some i }
            let psc := if IS_ENABLED_PHY_CODED then { psc with sync := some i }
              else psc
            (BT_HCI_ERR_SUCCESS,
             { st with
               scan1m := { per_scan := ps },
               scanCoded := { per_scan := psc },
               pool := st.pool.set i sync,
               free := free',
               env := env })

/-! ## ll_sync_create_cancel -/

/-- `ll_sync_create_cancel` (ull_sync.c:198).  Returns
(HCI status, written *rx node if any, new state, effect trace).
The source reads the sync pointer, clears the pending-target references on
both scan contexts, issues `cpu_dmb()`, then checks `timeout_reload`. -/
def ll_sync_create_cancel (st : CtlrState) :
    Nat × Option NodeRxOut × CtlrState × List Effect :=
  let scan := getScan st SCAN_HANDLE_1M
  match scan.per_scan.sync with
  | none => (BT_HCI_ERR_CMD_DISALLOWED, none, st, [])
  | some i =>
    if IS_ENABLED_PHY_CODED &&
        !(getScan st SCAN_HANDLE_PHY_CODED).per_scan.sync.isSome then
      (BT_HCI_ERR_CMD_DISALLOWED, none, st, [])
    else
      -- sync = scan->per_scan.sync; scan(_coded)->per_scan.sync = NULL
      let st1 := setScanSync st SCAN_HANDLE_1M none
      let tr := [Effect.clearPendingSync SCAN_HANDLE_1M]
      let st1 := if IS_ENABLED_PHY_CODED then
          setScanSync st1 SCAN_HANDLE_PHY_CODED none
        else st1
      let tr := tr ++ (if IS_ENABLED_PHY_CODED then
          [Effect.clearPendingSync SCAN_HANDLE_PHY_CODED] else [])
      -- cpu_dmb()
      let tr := tr ++ [Effect.dmb]
      let sync := getSync st1 i
      let v := sync.timeout_reload
      let tr := tr ++ [Effect.readTimeoutReload v]
      if v ≠ 0 then (BT_HCI_ERR_CMD_DISALLOWED, none, st1, tr)
      else
        match scan.per_scan.node_rx_estab with
        | none => (BT_HCI_ERR_CMD_DISALLOWED, none, st1, tr)
        | some (node_rx, link_sync_estab) =>
          let link_sync_lost := sync.node_rx_lost_link.getD 0
          let env := ll_rx_link_release st1.env link_sync_lost
          let env := ll_rx_link_release env link_sync_estab
          let env := ll_rx_release env node_rx
          let tr := tr ++ [Effect.rxLinkRelease link_sync_lost,
                           Effect.rxLinkRelease link_sync_estab,
                           Effect.rxRelease node_rx]
          -- reuse sync->node_rx_lost as the cancellation notification
          let node : NodeRxOut := {
            type := NODE_RX_TYPE_SYNC, handle := 0xffff,
            status := BT_HCI_ERR_OP_CANCELLED_BY_HOST,
            interval := 0, phy := 0, sca := 0 }
          (BT_HCI_ERR_SUCCESS, some node, { st1 with env := env }, tr)

/-! ## Lookup / release -/

/-- `ull_sync_set_get` (ull_sync.c:330): bounds-checked pool lookup. -/
def ull_sync_set_get (st : CtlrState) (handle : Nat) : Option SyncSet :=
  if handle ≥ st.pool.length then none else some (getSync st handle)

/-- `ull_sync_is_enabled_get` (ull_sync.c:339): the context only if
established (`timeout_reload != 0`). -/
def ull_sync_is_enabled_get (st : CtlrState) (handle : Nat) : Option SyncSet :=
  match ull_sync_set_get st handle with
  | none => none
  | some sync => if sync.timeout_reload = 0 then none else some sync

/-- `ull_sync_release` (ull_sync.c:372): `mem_release` pushes the slot back
on the free list. -/
def ull_sync_release (st : CtlrState) (i : Nat) : CtlrState :=
  { st with free := i :: st.free }

/-! ## ll_sync_terminate -/

/-- Modelled from the spec: `ull_ticker_stop_with_mark` is defined outside
this unit (ull_internal.c, only declared here); per the spec it issues a
scheduler stop with a mark-and-wait discipline that tolerates the scheduler
already being mid-stop: the outcome is either success (0, ticker was running
and is now stopped) or already-stopped (-EALREADY); anything else is fatal. -/
def ull_ticker_stop_with_mark (st : CtlrState) (tid : Nat) : Int × CtlrState :=
  if tid ∈ st.activeTickers then
    (0, { st with activeTickers := st.activeTickers.erase tid })
  else (-EALREADY, st)

/-- `ll_sync_terminate` (ull_sync.c:266).  `none` models a failing
`LL_ASSERT` (fatal); otherwise (HCI status, new state). -/
def ll_sync_terminate (st : CtlrState) (handle : Nat) :
    Option (Nat × CtlrState) :=
  match ull_sync_is_enabled_get st handle with
  | none => some (BT_HCI_ERR_UNKNOWN_ADV_IDENTIFIER, st)
  | some sync =>
    let r := ull_ticker_stop_with_mark st (TICKER_ID_SCAN_SYNC_BASE + handle)
    let err := r.1
    let st := r.2
    if ¬(err = 0 ∨ err = -EALREADY) then none     -- LL_ASSERT
    else if err ≠ 0 then some (BT_HCI_ERR_CMD_DISALLOWED, st)
    else
      let st := { st with
        env := ll_rx_link_release st.env (sync.node_rx_lost_link.getD 0) }
      some (BT_HCI_ERR_SUCCESS, ull_sync_release st handle)

/-! ## ll_sync_recv_enable -/

/-- `ll_sync_recv_enable` (ull_sync.c:292): unimplemented, rejects. -/
def ll_sync_recv_enable (st : CtlrState) (_handle _enable : Nat) :
    Nat × CtlrState :=
  (BT_HCI_ERR_CMD_DISALLOWED, st)

/-! ## ull_sync_setup -/

/-- The channel map as decoded by `ull_sync_setup`: copy of `si->sca_chm`
with the SCA bits of byte 4 cleared (`&= ~0xE0`, i.e. `% 32`). -/
def setupChanMap (si : SyncInfo) : List Nat :=
  (bytesAt si.sca_chm 0 5).set PDU_SYNC_INFO_SCA_CHM_SCA_BYTE_OFFSET
    (si.sca_chm.getD PDU_SYNC_INFO_SCA_CHM_SCA_BYTE_OFFSET 0 % 256 % 32)

/-- The SCA value extracted from byte 4 of `si->sca_chm`
(`(b & 0xE0) >> 5`, i.e. `b / 32` for a byte). -/
def scaGet (si : SyncInfo) : Nat :=
  si.sca_chm.getD PDU_SYNC_INFO_SCA_CHM_SCA_BYTE_OFFSET 0 % 256 / 32

/-- `ull_sync_setup` (ull_sync.c:377).  Returns (new state, effect trace).
The caller (scan aux path) guarantees `scan->per_scan.sync` and
`scan->per_scan.node_rx_estab` are non-NULL; on a NULL we return the state
unchanged (the C would fault). -/
def ull_sync_setup (ext : ExtEnv) (st : CtlrState) (scanId aux_phy : Nat)
    (ftr : Ftr) (pdu_len : Nat) (si : SyncInfo) : CtlrState × List Effect :=
  match (getScan st scanId).per_scan.sync with
  | none => (st, [])
  | some i =>
    let sync := getSync st i
    let lll := sync.lll
    -- chm_last = lll->chm_first; lll->chm_last = chm_last; copy map; mask SCA
    let chm_last := lll.chm_first
    let data_chan_map := setupChanMap si
    let data_chan_count := util_ones_count_get data_chan_map
    let entry : ChmEntry :=
      { data_chan_map := data_chan_map, data_chan_count := data_chan_count }
    let lll := { lll with
      chm_last := chm_last,
      chm := lll.chm.set chm_last entry }
    if data_chan_count < 2 then
      -- Ignore sync setup, invalid available channel count
      (setSync st i { sync with lll := lll }, [])
    else
      let aa := bytesAt si.aa 0 4
      let lll := { lll with
        access_addr := aa,
        data_chan_id := ext.lll_chan_id aa,
        crc_init := bytesAt si.crc_init 0 3,
        event_counter := si.evt_cntr,
        phy := aux_phy }
      let sca := scaGet si
      let interval := sys_le16_to_cpu si.interval
      let interval_us := interval * CONN_INT_UNIT_US
      let sync := { sync with
        timeout_reload := RADIO_SYNC_EVENTS (sync.timeout * 10 * 1000) interval_us }
      let lll := { lll with
        window_widening_periodic_us :=
          ((ext.lll_clock_ppm_local_get + ext.lll_clock_ppm_get sca) *
            interval_us + (1000000 - 1)) / 1000000,
        window_widening_max_us := u32sub (interval_us / 2) ext.EVENT_IFS_US,
        window_size_event_us :=
          if si.offs_units then OFFS_UNIT_300_US else OFFS_UNIT_30_US }
      -- reset the sync context allocated to scan contexts
      let st := setScanSync st scanId none
      let st := if IS_ENABLED_PHY_CODED then
          (if scanId = SCAN_HANDLE_1M then
             setScanSync st SCAN_HANDLE_PHY_CODED none
           else setScanSync st SCAN_HANDLE_1M none)
        else st
      let sync_handle := i
      match (getScan st scanId).per_scan.node_rx_estab with
      | none => (st, [])
      | some (_node_id, link) =>
        -- prepare and dispatch sync notification
        let node : NodeRxOut := {
          type := NODE_RX_TYPE_SYNC, handle := sync_handle,
          status := BT_HCI_ERR_SUCCESS, interval := interval,
          phy := lll.phy, sca := sca }
        -- calculate offset and schedule sync radio events
        let ready_delay_us := ext.lll_radio_rx_ready_delay_get lll.phy 1
        let sync_offset_us := u32 (ftr.radio_end_us +
          si.offs * lll.window_size_event_us)
        let sync_offset_us := u32 (sync_offset_us +
          (if si.offs_adjust then OFFS_ADJUST_US else 0))
        let sync_offset_us := u32sub sync_offset_us
          (ext.pdu_ac_us pdu_len lll.phy ftr.phy_flags)
        let sync_offset_us := u32sub sync_offset_us ext.EVENT_TICKER_RES_MARGIN_US
        let sync_offset_us := u32sub sync_offset_us ext.EVENT_JITTER_US
        let sync_offset_us := u32sub sync_offset_us ready_delay_us
        let interval_us := u32sub interval_us lll.window_widening_periodic_us
        let ull : UllHdr := {
          ticks_active_to_start := 0,
          ticks_prepare_to_start :=
            ext.hal_ticker_us_to_ticks ext.EVENT_OVERHEAD_XTAL_US,
          ticks_preempt_to_start :=
            ext.hal_ticker_us_to_ticks ext.EVENT_OVERHEAD_PREEMPT_MIN_US,
          ticks_slot := ext.hal_ticker_us_to_ticks
            (ext.EVENT_OVERHEAD_START_US + ready_delay_us +
             ext.pdu_ac_max_us ext.PDU_AC_EXT_PAYLOAD_SIZE_MAX lll.phy +
             ext.EVENT_OVERHEAD_END_US) }
        let ticks_slot_offset := max ull.ticks_active_to_start
          ull.ticks_prepare_to_start
        let ticks_slot_overhead :=
          if IS_ENABLED_LOW_LAT then ticks_slot_offset else 0
        let ticks_slot_offset := ticks_slot_offset +
          ext.hal_ticker_us_to_ticks ext.EVENT_OVERHEAD_START_US
        let tid := TICKER_ID_SCAN_SYNC_BASE + sync_handle
        let st := setSync st i { sync with ull := ull, lll := lll }
        let st := { st with activeTickers := tid :: st.activeTickers }
        (st,
         [Effect.rxPut link node, Effect.rxSched,
          Effect.tickerStart tid
            (u32sub ftr.ticks_anchor ticks_slot_offset)
            (ext.hal_ticker_us_to_ticks sync_offset_us)
            (ext.hal_ticker_us_to_ticks interval_us)
            (ull.ticks_slot + ticks_slot_overhead)])

/-! ## ull_sync_done (supervision engine) -/

/-- Result of one `ull_sync_done` invocation: the new context, whether loss
was declared (`timeout_cleanup` invoked, which issues the ticker stop), and
the parameters of the ticker update that is issued iff `update_issued`. -/
structure DoneOut where
  sync : SyncSet
  loss : Bool
  ticks_drift_plus : Nat
  ticks_drift_minus : Nat
  lazy : Nat
  force : Nat
  update_issued : Bool
deriving DecidableEq

/-- `ull_sync_done` (ull_sync.c:531).  `crc_valid`/`trx_cnt` come from
`done->extra`; `dp`/`dm` are the outputs of the external
`ull_drift_ticks_get` helper (only consulted when `trx_cnt != 0`). -/
def ull_sync_done (s0 : SyncSet) (crc_valid : Bool) (trx_cnt dp dm : Nat) :
    DoneOut :=
  let skip_event := s0.lll.skip_event
  -- skip_event, elapsed_event and lazy are uint16 locals in the source:
  -- skip_event + 1 wraps at 65535
  let elapsed_event := (skip_event + 1) % 65536
  -- drift compensation and new skip
  let ticks_drift_plus := if trx_cnt ≠ 0 then dp else 0
  let ticks_drift_minus := if trx_cnt ≠ 0 then dm else 0
  let s := if trx_cnt ≠ 0 then
      { s0 with lll := { s0.lll with skip_event := s0.skip } }
    else s0
  -- reset / arm supervision countdown
  let s := if crc_valid then { s with timeout_expire := 0 }
    else if s.timeout_expire = 0 then
      { s with timeout_expire := s.timeout_reload }
    else s
  -- the non-loss exit: compute lazy and the ticker-update condition
  let finish : SyncSet → Nat → DoneOut := fun s force =>
    let lazy := if force ≠ 0 ∨ skip_event ≠ s.lll.skip_event then
        (s.lll.skip_event + 1) % 65536
      else 0
    let update_issued := (ticks_drift_plus != 0) || (ticks_drift_minus != 0) ||
      (lazy != 0) || (force != 0)
    { sync := s, loss := false, ticks_drift_plus := ticks_drift_plus,
      ticks_drift_minus := ticks_drift_minus, lazy := lazy, force := force,
      update_issued := update_issued }
  -- check timeout
  if s.timeout_expire ≠ 0 then
    if s.timeout_expire > elapsed_event then
      finish { s with
                timeout_expire := s.timeout_expire - elapsed_event,
                lll := { s.lll with skip_event := 0 } }
             (if skip_event ≠ 0 then 1 else 0)
    else                                            -- timeout_cleanup(sync)
      { sync := s, loss := true, ticks_drift_plus := ticks_drift_plus,
        ticks_drift_minus := ticks_drift_minus, lazy := 0, force := 0,
        update_issued := false }
  else finish s 0

/-- Run `ull_sync_done` over a sequence of completed events, none of which
has a valid reception (`crc_valid = false`); per-event inputs are
(trx_cnt, drift_plus, drift_minus).  `none` means loss was declared at or
before the last event. -/
def runMisses : SyncSet → List (Nat × Nat × Nat) → Option SyncSet
  | s, [] => some s
  | s, ev :: rest =>
    let r := ull_sync_done s false ev.1 ev.2.1 ev.2.2
    if r.loss then none else runMisses r.sync rest

/-! ## ull_sync_chm_update -/

/-- The do-while scan over the ACAD for a Channel Map Update Indication
record (ull_sync.c:646).  Fuel-based: each iteration strictly decreases
`acad_len`, so `acad_len + 1` fuel always suffices.  Returns the remaining
buffer positioned at the record together with its declared length. -/
def chm_scan : Nat → List Nat → Nat → Option (List Nat × Nat)
  | 0, _, _ => none
  | fuel + 1, acad, acad_len =>
    let ad_len := acad.getD 0 0
    if ad_len ≠ 0 ∧ acad.getD 1 0 = BT_DATA_CHANNEL_MAP_UPDATE_IND then
      some (acad, ad_len)
    else
      let adv := ad_len + 1
      if adv < acad_len then chm_scan fuel (acad.drop adv) (acad_len - adv)
      else none

def chm_find (acad : List Nat) (acad_len : Nat) : Option (List Nat × Nat) :=
  chm_scan (acad_len + 1) acad acad_len

/-- The channel map carried by a Channel Map Update Indication record
(bytes 2..6 of the record). -/
def updChanMap (acad : List Nat) : List Nat := bytesAt acad 2 5

/-- `ull_sync_chm_update` (ull_sync.c:627).  `none` models the failing
`LL_ASSERT(sync)` on an invalid handle. -/
def ull_sync_chm_update (st : CtlrState) (sync_handle : Nat)
    (acad : List Nat) (acad_len : Nat) : Option CtlrState :=
  if sync_handle ≥ st.pool.length then none else
  let sync := getSync st sync_handle
  let lll := sync.lll
  -- ignore if already in progress
  if lll.chm_last ≠ lll.chm_first then some st
  else
    match chm_find acad acad_len with
    | none => some st
    | some (acad', ad_len) =>
      -- validate the size of the Channel Map Update Indication
      if ad_len ≠ pdu_adv_sync_chm_upd_ind_size + 1 then some st
      else
        let chm_last := if lll.chm_last + 1 = DOUBLE_BUFFER_SIZE then 0
          else lll.chm_last + 1
        let map := updChanMap acad'
        let cnt := util_ones_count_get map
        let entry : ChmEntry := { data_chan_map := map, data_chan_count := cnt }
        let lll := { lll with chm := lll.chm.set chm_last entry }
        if cnt < 2 then
          -- Ignore channel map, invalid available channel count
          some (setSync st sync_handle { sync with lll := lll })
        else
          let lll := { lll with
            chm_instant := sys_le16_to_cpu
              (acad'.getD 7 0 % 256 + 256 * (acad'.getD 8 0 % 256)),
            chm_last := chm_last }
          some (setSync st sync_handle { sync with lll := lll })

/-! ## Concrete sample inputs used by witnesses -/

def chmEntrySample : ChmEntry :=
  { data_chan_map := [255, 255, 255, 255, 31], data_chan_count := 37 }

def lllSample : LllSync :=
  { skip_prepare := 0, skip_event := 0, window_widening_prepare_us := 0,
    window_widening_event_us := 0, window_widening_periodic_us := 0,
    window_widening_max_us := 0, window_size_event_us := 0, is_rx_enabled := 0,
    access_addr := [0, 0, 0, 0], data_chan_id := 0, crc_init := [0, 0, 0],
    event_counter := 0, phy := 0,
    chm := { e0 := chmEntrySample, e1 := chmEntrySample },
    chm_first := 0, chm_last := 0, chm_instant := 0 }

def ullSample : UllHdr :=
  { ticks_active_to_start := 0, ticks_prepare_to_start := 0,
    ticks_preempt_to_start := 0, ticks_slot := 0 }

/-- An established context: `timeout_reload = 2`, countdown inactive. -/
def syncSample : SyncSet :=
  { skip := 0, timeout := 0, timeout_reload := 2, timeout_expire := 0,
    node_rx_lost_link := some 5, ull := ullSample, lll := lllSample }

/-- A context still pending establishment (`timeout_reload = 0`). -/
def syncPend : SyncSet := { syncSample with timeout_reload := 0 }

/-- An established context configured with the maximal uint16 skip, at
which `lazy = skip_event + 1` wraps to 0 in the source. -/
def syncSkipMax : SyncSet := { syncSample with skip := 65535 }

def perScanSample : PerScan :=
  { sync := some 0, state := 0, filter_policy := 0, sid := 0,
    adv_addr_type := 0, adv_addr := [0, 0, 0, 0, 0, 0],
    node_rx_estab := some (7, 3) }

def stBase : CtlrState :=
  { scan1m := { per_scan := perScanSample },
    scanCoded := { per_scan := perScanSample },
    pool := [syncSample],
    free := [],
    env := { freeLinks := 4, nextLink := 10, freeNodes := 4, nextNode := 20 },
    activeTickers := [TICKER_ID_SCAN_SYNC_BASE] }

/-- Like `stBase` but the pooled context is still pending establishment. -/
def stPend : CtlrState := { stBase with pool := [syncPend] }

/-- No pending sync on either scan context and no free rx links. -/
def stShort : CtlrState :=
  { stBase with
    scan1m := { per_scan := { perScanSample with sync := none } },
    scanCoded := { per_scan := { perScanSample with sync := none } },
    env := { freeLinks := 0, nextLink := 10, freeNodes := 4, nextNode := 20 } }

/-- No pending sync, ample resources, slot 0 free. -/
def stFreeOk : CtlrState :=
  { stBase with
    scan1m := { per_scan := { perScanSample with sync := none } },
    scanCoded := { per_scan := { perScanSample with sync := none } },
    free := [0] }

/-- A channel-map update already staged (`chm_last != chm_first`). -/
def stInProgress : CtlrState :=
  { stBase with pool := [{ syncSample with lll := { lllSample with chm_last := 1 } }] }

def extSample : ExtEnv :=
  { lll_clock_ppm_local_get := 50,
    lll_clock_ppm_get := fun _ => 50,
    lll_radio_rx_ready_delay_get := fun _ _ => 10,
    lll_chan_id := fun _ => 3,
    pdu_ac_us := fun _ _ _ => 100,
    pdu_ac_max_us := fun _ _ => 200,
    hal_ticker_us_to_ticks := fun us => us / 31,
    hal_ticker_remainder := fun _ => 0,
    EVENT_IFS_US := 150,
    EVENT_TICKER_RES_MARGIN_US := 2,
    EVENT_JITTER_US := 16,
    EVENT_OVERHEAD_XTAL_US := 300,
    EVENT_OVERHEAD_PREEMPT_MIN_US := 0,
    EVENT_OVERHEAD_START_US := 50,
    EVENT_OVERHEAD_END_US := 40,
    PDU_AC_EXT_PAYLOAD_SIZE_MAX := 255 }

/-- Descriptor with a full (37-channel) map. -/
def siGood : SyncInfo :=
  { sca_chm := [255, 255, 255, 255, 255], aa := [1, 2, 3, 4],
    crc_init := [1, 2, 3], evt_cntr := 9, interval := 100, offs := 4,
    offs_units := false, offs_adjust := false }

/-- Descriptor whose channel map has a single usable channel. -/
def siBad : SyncInfo := { siGood with sca_chm := [1, 0, 0, 0, 0] }

def ftrSample : Ftr :=
  { ticks_anchor := 1000, radio_end_us := 5000, phy_flags := 0 }

/-- A well-formed Channel Map Update Indication record (len 8, type 0x28,
full channel map, instant 0x1234). -/
def acadGoodUpd : List Nat := [8, 0x28, 255, 255, 255, 255, 31, 0x34, 0x12]

/-- Same record but with a single usable channel. -/
def acadBadUpd : List Nat := [8, 0x28, 1, 0, 0, 0, 0, 0x34, 0x12]

/-! ## Helper lemmas -/

theorem list_getD_set_self {α : Type} : ∀ (l : List α) (i : Nat) (v d : α),
    i < l.length → (l.set i v).getD i d = v := by
  intro l
  induction l with
  | nil => intro i v d h; simp at h
  | cons a t ih =>
    intro i v d h
    cases i with
    | zero => rfl
    | succ n => exact ih n v d (by simpa using h)

theorem getSync_setSync_self (st : CtlrState) (i : Nat) (v : SyncSet)
    (h : i < st.pool.length) : getSync (setSync st i v) i = v := by
  simpa [getSync, setSync] using list_getD_set_self st.pool i v default h

theorem chmStore_get_set_self (c : ChmStore) (i : Nat) (v : ChmEntry) :
    (c.set i v).get i = v := by
  by_cases h : i = 0 <;> simp [ChmStore.get, ChmStore.set, h]

/-! ## Claim C9 -/

/-- Claim C9: for every handle and every enable value, `ll_sync_recv_enable`
returns the disallowed-operation error and mutates no state. -/
theorem recv_enable_disallowed (st : CtlrState) (handle enable : Nat) :
    ll_sync_recv_enable st handle enable = (BT_HCI_ERR_CMD_DISALLOWED, st) := rfl

/-! ## Claim C1: supervision timeout law -/

theorem done_miss_loss (s : SyncSet) (trx dp dm : Nat)
    (hse : s.lll.skip_event = 0)
    (hr : (if s.timeout_expire = 0 then s.timeout_reload
           else s.timeout_expire) = 1) :
    (ull_sync_done s false trx dp dm).loss = true := by
  simp only [ull_sync_done, hse]
  split_ifs at hr ⊢ <;> simp_all

theorem done_miss_cont (s : SyncSet) (trx dp dm : Nat)
    (hskip : s.skip = 0) (hse : s.lll.skip_event = 0)
    (hr : 2 ≤ (if s.timeout_expire = 0 then s.timeout_reload
               else s.timeout_expire)) :
    (ull_sync_done s false trx dp dm).loss = false ∧
    (ull_sync_done s false trx dp dm).sync.skip = 0 ∧
    (ull_sync_done s false trx dp dm).sync.lll.skip_event = 0 ∧
    (ull_sync_done s false trx dp dm).sync.timeout_reload = s.timeout_reload ∧
    (ull_sync_done s false trx dp dm).sync.timeout_expire =
      (if s.timeout_expire = 0 then s.timeout_reload
       else s.timeout_expire) - 1 := by
  by_cases he : s.timeout_expire = 0
  · rw [if_pos he] at hr ⊢
    have hne : s.timeout_reload ≠ 0 := by omega
    have hgt : 1 < s.timeout_reload := by omega
    by_cases ht : trx ≠ 0 <;>
      simp [ull_sync_done, ht, he, hse, hskip, hne, hgt]
  · rw [if_neg he] at hr ⊢
    have hgt : 1 < s.timeout_expire := by omega
    by_cases ht : trx ≠ 0 <;>
      simp [ull_sync_done, ht, he, hse, hskip, hgt]

theorem runMisses_spec (evs : List (Nat × Nat × Nat)) :
    ∀ s : SyncSet, s.skip = 0 → s.lll.skip_event = 0 →
    1 ≤ s.timeout_reload →
    (runMisses s evs = none ↔
      (if s.timeout_expire = 0 then s.timeout_reload
       else s.timeout_expire) ≤ evs.length) := by
  induction evs with
  | nil =>
    intro s hskip hse hrel
    simp only [runMisses, List.length_nil]
    constructor
    · intro h; exact absurd h (by simp)
    · intro h
      by_cases he : s.timeout_expire = 0 <;> simp [he] at h <;> omega
  | cons ev rest ih =>
    intro s hskip hse hrel
    have hr1 : 1 ≤ (if s.timeout_expire = 0 then s.timeout_reload
        else s.timeout_expire) := by
      by_cases he : s.timeout_expire = 0 <;> simp [he] <;> omega
    by_cases h2 : 2 ≤ (if s.timeout_expire = 0 then s.timeout_reload
        else s.timeout_expire)
    · obtain ⟨hl, hs1, hs2, hs3, hs4⟩ :=
        done_miss_cont s ev.1 ev.2.1 ev.2.2 hskip hse h2
      have hrel' : 1 ≤ (ull_sync_done s false ev.1 ev.2.1 ev.2.2).sync.timeout_reload := by
        rw [hs3]; exact hrel
      have := ih (ull_sync_done s false ev.1 ev.2.1 ev.2.2).sync hs1 hs2 hrel'
      rw [hs4] at this
      have hne : ¬((if s.timeout_expire = 0 then s.timeout_reload
          else s.timeout_expire) - 1 = 0) := by omega
      rw [if_neg hne] at this
      simp only [runMisses, hl, if_neg (Bool.false_ne_true), List.length_cons]
      rw [this]
      omega
    · have := done_miss_loss s ev.1 ev.2.1 ev.2.2 hse (by omega)
      simp only [runMisses, this, if_pos rfl, List.length_cons]
      constructor
      · intro _; omega
      · intro _; rfl

/-- Claim C1: with `skip = 0` and `timeoutReload = T >= 1`, starting from the
last valid reception or from establishment (`timeout_expire = 0`,
`skip_event = 0`), running the supervision engine over consecutive completed
events with no valid reception declares loss (invokes `timeout_cleanup`)
exactly on the T-th such event: a run of the supervision engine hits loss
iff it spans at least T events, for every per-event trx/drift input. -/
theorem supervision_timeout_law (s : SyncSet) (T : Nat) (hskip : s.skip = 0)
    (hse : s.lll.skip_event = 0) (hT : s.timeout_reload = T) (hT1 : 1 ≤ T)
    (hexp : s.timeout_expire = 0) (evs : List (Nat × Nat × Nat)) :
    runMisses s evs = none ↔ T ≤ evs.length := by
  have h := runMisses_spec evs s hskip hse (by omega)
  rw [hexp] at h
  simpa [hT] using h

theorem supervision_timeout_law_witness :
    runMisses syncSample [(1, 5, 0), (0, 0, 0)] = none ∧
    runMisses syncSample [(1, 5, 0)] ≠ none := by
  constructor
  · exact (supervision_timeout_law syncSample 2 rfl rfl rfl (by decide) rfl
      [(1, 5, 0), (0, 0, 0)]).mpr (by decide)
  · intro h
    have := (supervision_timeout_law syncSample 2 rfl rfl rfl (by decide) rfl
      [(1, 5, 0)]).mp h
    simp at this

/-! ## Claim C2: all-or-nothing resource acquisition in ll_sync_create -/

/-- Claim C2: every `ll_sync_create` invocation that fails partway through
resource acquisition returns the capacity error with all previously
acquired resources released: the free-link/free-node counts, the pool free
list, the pool contents and both scan contexts are exactly as before the
call.  Conversely, any resource shortage (fewer than 2 free links, no free
node, or an empty pool free list) with passing preconditions yields exactly
the capacity error. -/
theorem create_alloc_all_or_nothing (st : CtlrState)
    (options sid aat : Nat) (addr : List Nat) (skip tmo cte : Nat) :
    ((ll_sync_create st options sid aat addr skip tmo cte).1 =
        BT_HCI_ERR_MEM_CAPACITY_EXCEEDED →
      (ll_sync_create st options sid aat addr skip tmo cte).2.env.freeLinks =
          st.env.freeLinks ∧
      (ll_sync_create st options sid aat addr skip tmo cte).2.env.freeNodes =
          st.env.freeNodes ∧
      (ll_sync_create st options sid aat addr skip tmo cte).2.free = st.free ∧
      (ll_sync_create st options sid aat addr skip tmo cte).2.pool = st.pool ∧
      (ll_sync_create st options sid aat addr skip tmo cte).2.scan1m =
          st.scan1m ∧
      (ll_sync_create st options sid aat addr skip tmo cte).2.scanCoded =
          st.scanCoded) ∧
    (st.scan1m.per_scan.sync = none → st.scanCoded.per_scan.sync = none →
      (st.env.freeLinks < 2 ∨ st.env.freeNodes = 0 ∨ st.free = []) →
      (ll_sync_create st options sid aat addr skip tmo cte).1 =
        BT_HCI_ERR_MEM_CAPACITY_EXCEEDED) := by
  rcases hs1 : st.scan1m.per_scan.sync with _ | i1
  · rcases hs2 : st.scanCoded.per_scan.sync with _ | i2
    · by_cases hL0 : st.env.freeLinks = 0
      · constructor
        · intro _
          simp [ll_sync_create, getScan, SCAN_HANDLE_1M, SCAN_HANDLE_PHY_CODED,
                IS_ENABLED_PHY_CODED, hs1, hs2, ll_rx_link_alloc, hL0]
        · intro _ _ _
          simp [ll_sync_create, getScan, SCAN_HANDLE_1M, SCAN_HANDLE_PHY_CODED,
                IS_ENABLED_PHY_CODED, hs1, hs2, ll_rx_link_alloc, hL0]
      · by_cases hL1 : st.env.freeLinks - 1 = 0
        · constructor
          · intro _
            simp [ll_sync_create, getScan, SCAN_HANDLE_1M, SCAN_HANDLE_PHY_CODED,
                IS_ENABLED_PHY_CODED, hs1, hs2, ll_rx_link_alloc,
                  ll_rx_link_release, hL0, hL1]
            omega
          · intro _ _ _
            simp [ll_sync_create, getScan, SCAN_HANDLE_1M, SCAN_HANDLE_PHY_CODED,
                IS_ENABLED_PHY_CODED, hs1, hs2, ll_rx_link_alloc,
                  ll_rx_link_release, hL0, hL1]
        · by_cases hN : st.env.freeNodes = 0
          · constructor
            · intro _
              simp [ll_sync_create, getScan, SCAN_HANDLE_1M, SCAN_HANDLE_PHY_CODED,
                IS_ENABLED_PHY_CODED, hs1, hs2, ll_rx_link_alloc,
                    ll_rx_alloc, ll_rx_link_release, hL0, hL1, hN]
              omega
            · intro _ _ _
              simp [ll_sync_create, getScan, SCAN_HANDLE_1M, SCAN_HANDLE_PHY_CODED,
                IS_ENABLED_PHY_CODED, hs1, hs2, ll_rx_link_alloc,
                    ll_rx_alloc, ll_rx_link_release, hL0, hL1, hN]
          · rcases hf : st.free with _ | ⟨i, fr⟩
            · constructor
              · intro _
                simp [ll_sync_create, getScan, SCAN_HANDLE_1M, SCAN_HANDLE_PHY_CODED,
                IS_ENABLED_PHY_CODED, hs1, hs2, ll_rx_link_alloc,
                      ll_rx_alloc, ll_rx_link_release, ll_rx_release,
                      hL0, hL1, hN, hf]
                omega
              · intro _ _ _
                simp [ll_sync_create, getScan, SCAN_HANDLE_1M, SCAN_HANDLE_PHY_CODED,
                IS_ENABLED_PHY_CODED, hs1, hs2, ll_rx_link_alloc,
                      ll_rx_alloc, ll_rx_link_release, ll_rx_release,
                      hL0, hL1, hN, hf]
            · constructor
              · intro h
                simp [ll_sync_create, getScan, SCAN_HANDLE_1M, SCAN_HANDLE_PHY_CODED,
                IS_ENABLED_PHY_CODED, hs1, hs2, ll_rx_link_alloc,
                      ll_rx_alloc, hL0, hL1, hN, hf,
                      BT_HCI_ERR_SUCCESS, BT_HCI_ERR_MEM_CAPACITY_EXCEEDED] at h
              · intro _ _ hshort
                rcases hshort with h | h | h
                · omega
                · exact absurd h hN
                · simp at h
    · constructor
      · intro h
        simp [ll_sync_create, getScan, SCAN_HANDLE_1M, SCAN_HANDLE_PHY_CODED,
                IS_ENABLED_PHY_CODED, hs1, hs2, BT_HCI_ERR_CMD_DISALLOWED,
              BT_HCI_ERR_MEM_CAPACITY_EXCEEDED] at h
      · intro _ g2 _
        simp at g2
  · constructor
    · intro h
      simp [ll_sync_create, getScan, SCAN_HANDLE_1M, SCAN_HANDLE_PHY_CODED,
            IS_ENABLED_PHY_CODED, hs1, BT_HCI_ERR_CMD_DISALLOWED,
            BT_HCI_ERR_MEM_CAPACITY_EXCEEDED] at h
    · intro g1 _ _
      simp at g1

theorem create_alloc_all_or_nothing_witness :
    (ll_sync_create stShort 0 1 0 [1, 2, 3, 4, 5, 6] 0 10 0).1 =
      BT_HCI_ERR_MEM_CAPACITY_EXCEEDED ∧
    (ll_sync_create stShort 0 1 0 [1, 2, 3, 4, 5, 6] 0 10 0).2.free =
      stShort.free ∧
    (ll_sync_create stShort 0 1 0 [1, 2, 3, 4, 5, 6] 0 10 0).2.env.freeLinks =
      stShort.env.freeLinks := by
  have h := create_alloc_all_or_nothing stShort 0 1 0 [1, 2, 3, 4, 5, 6] 0 10 0
  have hcap := h.2 (by decide) (by decide) (Or.inl (by decide))
  exact ⟨hcap, (h.1 hcap).2.2.1, (h.1 hcap).1⟩

/-! ## Claim C10: a freshly created context is not yet established -/

/-- Claim C10: after every successful `ll_sync_create`, the acquired context
has `timeout_reload = 0` and `timeout_expire = 0`, and
`ull_sync_is_enabled_get` on its handle returns NULL (the establishment
flag is clear until `ull_sync_setup` runs). -/
theorem create_leaves_unestablished (st : CtlrState) (options sid aat : Nat)
    (addr : List Nat) (skip tmo cte : Nat) (i : Nat) (rest : List Nat)
    (hs1 : st.scan1m.per_scan.sync = none)
    (hs2 : st.scanCoded.per_scan.sync = none)
    (hL : 2 ≤ st.env.freeLinks) (hN : 1 ≤ st.env.freeNodes)
    (hf : st.free = i :: rest) (hi : i < st.pool.length) :
    (ll_sync_create st options sid aat addr skip tmo cte).1 =
      BT_HCI_ERR_SUCCESS ∧
    (ll_sync_create st options sid aat addr skip tmo cte).2.scan1m.per_scan.sync =
      some i ∧
    (getSync (ll_sync_create st options sid aat addr skip tmo cte).2 i).timeout_reload = 0 ∧
    (getSync (ll_sync_create st options sid aat addr skip tmo cte).2 i).timeout_expire = 0 ∧
    ull_sync_is_enabled_get (ll_sync_create st options sid aat addr skip tmo cte).2 i =
      none := by
  have hL0 : ¬(st.env.freeLinks = 0) := by omega
  have hL1 : ¬(st.env.freeLinks - 1 = 0) := by omega
  have hN0 : ¬(st.env.freeNodes = 0) := by omega
  have hlen : ¬(i ≥ st.pool.length) := by omega
  simp [ll_sync_create, getScan, SCAN_HANDLE_1M, SCAN_HANDLE_PHY_CODED,
    IS_ENABLED_PHY_CODED, hs1, hs2, ll_rx_link_alloc, ll_rx_alloc,
    hL0, hL1, hN0, hf, ull_sync_is_enabled_get, ull_sync_set_get, getSync,
    hlen, hi, list_getD_set_self]

theorem create_leaves_unestablished_witness :
    (ll_sync_create stFreeOk 0 1 0 [1, 2, 3, 4, 5, 6] 0 10 0).1 =
      BT_HCI_ERR_SUCCESS ∧
    ull_sync_is_enabled_get
      (ll_sync_create stFreeOk 0 1 0 [1, 2, 3, 4, 5, 6] 0 10 0).2 0 = none := by
  have h := create_leaves_unestablished stFreeOk 0 1 0 [1, 2, 3, 4, 5, 6] 0 10 0
    0 [] (by decide) (by decide) (by decide) (by decide) (by decide) (by decide)
  exact ⟨h.1, h.2.2.2.2⟩

/-! ## Claim C6: idempotent terminate -/

/-- Claim C6: invoking `ll_sync_terminate` twice on the same established
handle is never fatal (no LL_ASSERT fires): the first call succeeds and the
second reports the already-stopped outcome (disallowed), and the pool slot
is pushed onto the free list exactly once across the two calls. -/
theorem terminate_idempotent (st : CtlrState) (handle : Nat)
    (hi : handle < st.pool.length)
    (hrel : (getSync st handle).timeout_reload ≠ 0)
    (ht : (TICKER_ID_SCAN_SYNC_BASE + handle) ∈ st.activeTickers)
    (hcnt : st.activeTickers.count (TICKER_ID_SCAN_SYNC_BASE + handle) = 1)
    (hfree : handle ∉ st.free) :
    ∃ st1 st2,
      ll_sync_terminate st handle = some (BT_HCI_ERR_SUCCESS, st1) ∧
      ll_sync_terminate st1 handle = some (BT_HCI_ERR_CMD_DISALLOWED, st2) ∧
      st1.free.count handle = 1 ∧ st2 = st1 := by
  have hlen : ¬(handle ≥ st.pool.length) := by omega
  have hnm : (TICKER_ID_SCAN_SYNC_BASE + handle) ∉
      st.activeTickers.erase (TICKER_ID_SCAN_SYNC_BASE + handle) := by
    refine List.count_eq_zero.mp ?_
    rw [List.count_erase_self, hcnt]
  simp [getSync] at hrel
  refine ⟨{ st with
      activeTickers := st.activeTickers.erase (TICKER_ID_SCAN_SYNC_BASE + handle),
      env := { st.env with freeLinks := st.env.freeLinks + 1 },
      free := handle :: st.free },
    { st with
      activeTickers := st.activeTickers.erase (TICKER_ID_SCAN_SYNC_BASE + handle),
      env := { st.env with freeLinks := st.env.freeLinks + 1 },
      free := handle :: st.free }, ?_, ?_, ?_, rfl⟩
  · simp [ll_sync_terminate, ull_sync_is_enabled_get, ull_sync_set_get,
      ull_ticker_stop_with_mark, ull_sync_release, ll_rx_link_release,
      getSync, hlen, hrel, ht, BT_HCI_ERR_SUCCESS]
  · simp [ll_sync_terminate, ull_sync_is_enabled_get, ull_sync_set_get,
      ull_ticker_stop_with_mark, ull_sync_release, ll_rx_link_release,
      getSync, hlen, hrel, hnm, EALREADY, BT_HCI_ERR_CMD_DISALLOWED]
  · simp [List.count_cons_self, List.count_eq_zero.mpr hfree]

theorem terminate_idempotent_witness :
    ∃ st1 st2,
      ll_sync_terminate stBase 0 = some (BT_HCI_ERR_SUCCESS, st1) ∧
      ll_sync_terminate st1 0 = some (BT_HCI_ERR_CMD_DISALLOWED, st2) ∧
      st1.free.count 0 = 1 ∧ st2 = st1 :=
  terminate_idempotent stBase 0 (by decide) (by decide) (by decide)
    (by decide) (by decide)

/-! ## Claim C4: cancellation race protocol -/

/-- Claim C4: `ll_sync_create_cancel` first clears the pending-target
reference on both scan contexts, then issues the full memory barrier, then
reads `timeout_reload` (the effect trace opens with exactly that sequence).
If the read value is non-zero the call returns the disallowed error and
releases nothing; if it is zero the call releases the loss link, the
establishment link and the establishment buffer exactly once each and
returns a loss-style notification with reason cancelled-by-host. -/
theorem create_cancel_race_protocol (st : CtlrState) (i j n est lost : Nat)
    (hs1 : st.scan1m.per_scan.sync = some i)
    (hs2 : st.scanCoded.per_scan.sync = some j)
    (hnr : st.scan1m.per_scan.node_rx_estab = some (n, est))
    (hl : (getSync st i).node_rx_lost_link = some lost)
    (hne : est ≠ lost) :
    ((getSync st i).timeout_reload ≠ 0 →
      ll_sync_create_cancel st =
        (BT_HCI_ERR_CMD_DISALLOWED, none,
         { st with
           scan1m := { per_scan := { st.scan1m.per_scan with sync := none } },
           scanCoded := { per_scan := { st.scanCoded.per_scan with sync := none } } },
         [Effect.clearPendingSync SCAN_HANDLE_1M,
          Effect.clearPendingSync SCAN_HANDLE_PHY_CODED,
          Effect.dmb,
          Effect.readTimeoutReload (getSync st i).timeout_reload])) ∧
    ((getSync st i).timeout_reload = 0 →
      ll_sync_create_cancel st =
        (BT_HCI_ERR_SUCCESS,
         some { type := NODE_RX_TYPE_SYNC, handle := 0xffff,
                status := BT_HCI_ERR_OP_CANCELLED_BY_HOST,
                interval := 0, phy := 0, sca := 0 },
         { st with
           scan1m := { per_scan := { st.scan1m.per_scan with sync := none } },
           scanCoded := { per_scan := { st.scanCoded.per_scan with sync := none } },
           env := { st.env with
                    freeLinks := st.env.freeLinks + 1 + 1,
                    freeNodes := st.env.freeNodes + 1 } },
         [Effect.clearPendingSync SCAN_HANDLE_1M,
          Effect.clearPendingSync SCAN_HANDLE_PHY_CODED,
          Effect.dmb,
          Effect.readTimeoutReload 0,
          Effect.rxLinkRelease lost,
          Effect.rxLinkRelease est,
          Effect.rxRelease n]) ∧
      (ll_sync_create_cancel st).2.2.2.count (Effect.rxLinkRelease lost) = 1 ∧
      (ll_sync_create_cancel st).2.2.2.count (Effect.rxLinkRelease est) = 1 ∧
      (ll_sync_create_cancel st).2.2.2.count (Effect.rxRelease n) = 1) := by
  simp [getSync] at hl
  constructor
  · intro hv
    simp [getSync] at hv
    simp [ll_sync_create_cancel, getScan, setScanSync, getSync,
      SCAN_HANDLE_1M, SCAN_HANDLE_PHY_CODED, IS_ENABLED_PHY_CODED,
      hs1, hs2, hnr, hl, hv]
  · intro hv
    simp [getSync] at hv
    refine ⟨?_, ?_⟩
    · simp [ll_sync_create_cancel, getScan, setScanSync, getSync,
        SCAN_HANDLE_1M, SCAN_HANDLE_PHY_CODED, IS_ENABLED_PHY_CODED,
        hs1, hs2, hnr, hl, hv, ll_rx_link_release, ll_rx_release]
    · simp [ll_sync_create_cancel, getScan, setScanSync, getSync,
        SCAN_HANDLE_1M, SCAN_HANDLE_PHY_CODED, IS_ENABLED_PHY_CODED,
        hs1, hs2, hnr, hl, hv, ll_rx_link_release, ll_rx_release,
        List.count_cons, hne, Ne.symm hne]

theorem create_cancel_race_protocol_witness :
    (ll_sync_create_cancel stPend).2.2.2.count (Effect.rxLinkRelease 5) = 1 ∧
    (ll_sync_create_cancel stPend).2.2.2.count (Effect.rxLinkRelease 3) = 1 ∧
    (ll_sync_create_cancel stPend).2.2.2.count (Effect.rxRelease 7) = 1 := by
  have h := (create_cancel_race_protocol stPend 0 0 7 3 5
    (by decide) (by decide) (by decide) (by decide) (by decide)).2 (by decide)
  exact ⟨h.2.1, h.2.2.1, h.2.2.2⟩

/-! ## Claim C5: channel-map update single flight -/

/-- Claim C5: a channel-map update is in progress iff `chm_last != chm_first`;
`ull_sync_chm_update` returns with the state untouched (ignoring even a
valid record) whenever `chm_last != chm_first` on entry, and it moves the
`chm_last` cursor only when it accepts a record whose staged entry has at
least 2 usable channels (cursor advanced to the other buffer slot), so once
the cursors realign a new update can be staged again. -/
theorem chm_update_single_flight :
    (∀ (st : CtlrState) (h : Nat) (acad : List Nat) (alen : Nat),
      h < st.pool.length →
      (getSync st h).lll.chm_last ≠ (getSync st h).lll.chm_first →
      ull_sync_chm_update st h acad alen = some st) ∧
    (∀ (st : CtlrState) (h : Nat) (acad : List Nat) (alen : Nat)
       (st' : CtlrState),
      ull_sync_chm_update st h acad alen = some st' →
      (getSync st' h).lll.chm_last ≠ (getSync st h).lll.chm_last →
      (getSync st h).lll.chm_last = (getSync st h).lll.chm_first ∧
      (getSync st' h).lll.chm_last =
        (if (getSync st h).lll.chm_last + 1 = DOUBLE_BUFFER_SIZE then 0
         else (getSync st h).lll.chm_last + 1) ∧
      2 ≤ ((getSync st' h).lll.chm.get
            (getSync st' h).lll.chm_last).data_chan_count) := by
  constructor
  · intro st h acad alen hi hne
    have hb : ¬(h ≥ st.pool.length) := by omega
    simp [ull_sync_chm_update, hb, hne]
  · intro st h acad alen st' heq hch
    by_cases hb : h ≥ st.pool.length
    · simp [ull_sync_chm_update, hb] at heq
    · have hil : h < st.pool.length := by omega
      by_cases hflight : (getSync st h).lll.chm_last ≠ (getSync st h).lll.chm_first
      · simp [ull_sync_chm_update, hb, hflight] at heq
        subst heq
        exact absurd rfl hch
      · have heqc : (getSync st h).lll.chm_last = (getSync st h).lll.chm_first :=
          not_ne_iff.mp hflight
        refine ⟨heqc, ?_⟩
        cases hcf : chm_find acad alen with
        | none =>
          simp [ull_sync_chm_update, hb, hflight, hcf] at heq
          subst heq
          exact absurd rfl hch
        | some pr =>
          obtain ⟨acad', adl⟩ := pr
          by_cases hadl : adl ≠ pdu_adv_sync_chm_upd_ind_size + 1
          · simp [ull_sync_chm_update, hb, hflight, hcf, hadl] at heq
            subst heq
            exact absurd rfl hch
          · simp only [ne_eq, not_not] at hadl
            by_cases hcnt : util_ones_count_get (updChanMap acad') < 2
            · simp [ull_sync_chm_update, hb, hflight, hcf, hadl, hcnt] at heq
              subst heq
              rw [getSync_setSync_self st h _ hil] at hch
              simp at hch
            · simp [ull_sync_chm_update, hb, hflight, hcf, hadl, hcnt] at heq
              subst heq
              rw [getSync_setSync_self st h _ hil]
              constructor
              · simp
              · simp [chmStore_get_set_self]
                omega

theorem chm_update_single_flight_witness :
    ull_sync_chm_update stInProgress 0 acadGoodUpd 9 = some stInProgress ∧
    ((getSync ((ull_sync_chm_update stBase 0 acadGoodUpd 9).getD stBase) 0).lll.chm_last =
       (if (getSync stBase 0).lll.chm_last + 1 = DOUBLE_BUFFER_SIZE then 0
        else (getSync stBase 0).lll.chm_last + 1) ∧
     2 ≤ ((getSync ((ull_sync_chm_update stBase 0 acadGoodUpd 9).getD stBase) 0).lll.chm.get
           (getSync ((ull_sync_chm_update stBase 0 acadGoodUpd 9).getD stBase) 0).lll.chm_last).data_chan_count) := by
  constructor
  · exact chm_update_single_flight.1 stInProgress 0 acadGoodUpd 9
      (by decide) (by decide)
  · have h := chm_update_single_flight.2 stBase 0 acadGoodUpd 9
      ((ull_sync_chm_update stBase 0 acadGoodUpd 9).getD stBase)
      (by decide) (by decide)
    exact ⟨h.2.1, h.2.2⟩

/-! ## Claim C3: channel-map floor (corrected) -/

/-- Claim C3 counterexample: a concrete `ull_sync_setup` invocation whose
presented channel map decodes to a single usable channel (< 2) does reject
(no establishment effect is emitted, `timeout_reload` stays 0), yet the
prior channel-map store is NOT left unchanged: the rejected map and its
count are written into the buffer entry at `chm_first` before the check,
so the claim as stated is false. -/
theorem chm_floor_counterexample :
    util_ones_count_get (setupChanMap siBad) < 2 ∧
    (ull_sync_setup extSample stBase SCAN_HANDLE_1M 1 ftrSample 10 siBad).2 = [] ∧
    (getSync (ull_sync_setup extSample stBase SCAN_HANDLE_1M 1 ftrSample 10 siBad).1 0).timeout_reload =
      (getSync stBase 0).timeout_reload ∧
    (getSync (ull_sync_setup extSample stBase SCAN_HANDLE_1M 1 ftrSample 10 siBad).1 0).lll.chm ≠
      (getSync stBase 0).lll.chm := by decide

/-- Claim C3 (amended): a setup or update presenting a channel map with
fewer than 2 usable channels produces no establishment and stages no
update: `ull_sync_setup` emits no notification or ticker start and leaves
`timeout_reload` and the scan contexts untouched, and `ull_sync_chm_update`
leaves `chm_last`, `chm_instant` and the active entry untouched — but in
both operations the rejected map and its channel count are written into
the targeted buffer entry before the rejection (the entry at `chm_first`
for setup, with `chm_last` realigned to `chm_first`; the spare entry for
update); all other state is unchanged. -/
theorem chm_floor_amended :
    (∀ (ext : ExtEnv) (st : CtlrState) (scanId aux_phy : Nat) (ftr : Ftr)
       (plen : Nat) (si : SyncInfo) (i : Nat),
      (getScan st scanId).per_scan.sync = some i →
      util_ones_count_get (setupChanMap si) < 2 →
      ull_sync_setup ext st scanId aux_phy ftr plen si =
        (setSync st i
          { getSync st i with lll :=
            { (getSync st i).lll with
              chm_last := (getSync st i).lll.chm_first,
              chm := (getSync st i).lll.chm.set (getSync st i).lll.chm_first
                { data_chan_map := setupChanMap si,
                  data_chan_count := util_ones_count_get (setupChanMap si) } } },
         [])) ∧
    (∀ (st : CtlrState) (h alen : Nat) (acad acad' : List Nat) (adl : Nat),
      h < st.pool.length →
      (getSync st h).lll.chm_last = (getSync st h).lll.chm_first →
      chm_find acad alen = some (acad', adl) →
      adl = pdu_adv_sync_chm_upd_ind_size + 1 →
      util_ones_count_get (updChanMap acad') < 2 →
      ull_sync_chm_update st h acad alen =
        some (setSync st h
          { getSync st h with lll :=
            { (getSync st h).lll with
              chm := (getSync st h).lll.chm.set
                (if (getSync st h).lll.chm_last + 1 = DOUBLE_BUFFER_SIZE then 0
                 else (getSync st h).lll.chm_last + 1)
                { data_chan_map := updChanMap acad',
                  data_chan_count := util_ones_count_get (updChanMap acad') } } })) := by
  constructor
  · intro ext st scanId aux_phy ftr plen si i hs hcnt
    simp [ull_sync_setup, hs, hcnt]
  · intro st h alen acad acad' adl hil heqc hcf hadl hcnt
    have hb : ¬(h ≥ st.pool.length) := by omega
    have hflight : ¬((getSync st h).lll.chm_last ≠ (getSync st h).lll.chm_first) :=
      not_ne_iff.mpr heqc
    simp [ull_sync_chm_update, hb, hflight, hcf, hadl, hcnt, heqc]

theorem chm_floor_amended_witness :
    ull_sync_setup extSample stBase SCAN_HANDLE_1M 1 ftrSample 10 siBad =
      (setSync stBase 0
        { getSync stBase 0 with lll :=
          { (getSync stBase 0).lll with
            chm_last := (getSync stBase 0).lll.chm_first,
            chm := (getSync stBase 0).lll.chm.set (getSync stBase 0).lll.chm_first
              { data_chan_map := setupChanMap siBad,
                data_chan_count := util_ones_count_get (setupChanMap siBad) } } },
       []) ∧
    ull_sync_chm_update stBase 0 acadBadUpd 9 =
      some (setSync stBase 0
        { getSync stBase 0 with lll :=
          { (getSync stBase 0).lll with
            chm := (getSync stBase 0).lll.chm.set
              (if (getSync stBase 0).lll.chm_last + 1 = DOUBLE_BUFFER_SIZE then 0
               else (getSync stBase 0).lll.chm_last + 1)
              { data_chan_map := updChanMap acadBadUpd,
                data_chan_count := util_ones_count_get (updChanMap acadBadUpd) } } }) := by
  constructor
  · exact chm_floor_amended.1 extSample stBase SCAN_HANDLE_1M 1 ftrSample 10
      siBad 0 (by decide) (by decide)
  · exact chm_floor_amended.2 stBase 0 9 acadBadUpd acadBadUpd 8
      (by decide) (by decide) (by decide) (by decide) (by decide)

/-! ## Claim C7: establishment notification precedes scheduling -/

/-- Claim C7: in every successful `ull_sync_setup` run (channel map
accepted), the effect trace is exactly: enqueue the establishment
notification (type sync-established, success status, the decoded interval,
the PHY, the extracted SCA) on the estab transport link, request delivery,
and only then start the scheduler entry for this sync handle — so
notify-established strictly precedes the first scheduled listen. -/
theorem setup_notify_before_schedule (ext : ExtEnv) (st : CtlrState)
    (scanId aux_phy : Nat) (ftr : Ftr) (plen : Nat) (si : SyncInfo)
    (i n link : Nat)
    (hs : (getScan st scanId).per_scan.sync = some i)
    (hnr : (getScan st scanId).per_scan.node_rx_estab = some (n, link))
    (hcnt : 2 ≤ util_ones_count_get (setupChanMap si)) :
    (ull_sync_setup ext st scanId aux_phy ftr plen si).2.take 2 =
      [Effect.rxPut link
        { type := NODE_RX_TYPE_SYNC, handle := i,
          status := BT_HCI_ERR_SUCCESS,
          interval := sys_le16_to_cpu si.interval,
          phy := aux_phy, sca := scaGet si },
       Effect.rxSched] ∧
    (ull_sync_setup ext st scanId aux_phy ftr plen si).2.length = 3 ∧
    tickerStartIdOf
        ((ull_sync_setup ext st scanId aux_phy ftr plen si).2.getD 2
          Effect.rxSched) =
      some (TICKER_ID_SCAN_SYNC_BASE + i) := by
  have hlt : ¬(util_ones_count_get (setupChanMap si) < 2) := by omega
  by_cases hid : scanId = SCAN_HANDLE_1M
  · subst hid
    simp [getScan, SCAN_HANDLE_1M] at hs hnr
    simp [ull_sync_setup, getScan, setScanSync, SCAN_HANDLE_1M,
      SCAN_HANDLE_PHY_CODED, IS_ENABLED_PHY_CODED, hs, hnr, hlt,
      tickerStartIdOf]
  · simp [getScan, hid] at hs hnr
    simp [ull_sync_setup, getScan, setScanSync, IS_ENABLED_PHY_CODED,
      hid, hs, hnr, hlt, tickerStartIdOf]

theorem setup_notify_before_schedule_witness :
    (ull_sync_setup extSample stPend SCAN_HANDLE_1M 1 ftrSample 10 siGood).2.take 2 =
      [Effect.rxPut 3
        { type := NODE_RX_TYPE_SYNC, handle := 0,
          status := BT_HCI_ERR_SUCCESS,
          interval := sys_le16_to_cpu siGood.interval,
          phy := 1, sca := scaGet siGood },
       Effect.rxSched] ∧
    (ull_sync_setup extSample stPend SCAN_HANDLE_1M 1 ftrSample 10 siGood).2.length = 3 ∧
    tickerStartIdOf
        ((ull_sync_setup extSample stPend SCAN_HANDLE_1M 1 ftrSample 10 siGood).2.getD 2
          Effect.rxSched) =
      some (TICKER_ID_SCAN_SYNC_BASE + 0) :=
  setup_notify_before_schedule extSample stPend SCAN_HANDLE_1M 1 ftrSample 10
    siGood 0 7 3 (by decide) (by decide) (by decide)

/-! ## Claim C8: lazy computation and the scheduler-update guard
(corrected: `lazy` is a uint16 and wraps at `skip_event = 65535`) -/

/-- Claim C8 counterexample: a concrete non-loss `ull_sync_done` invocation
(crc-valid event, activity, zero drift, configured skip 65535) in which the
skip budget changes during the event (0 to 65535), yet `lazy` is 0 — not
the claimed `skip_event + 1` — because the uint16 computation
`lazy = lll->skip_event + 1U` wraps; consequently no ticker update is
issued even though the skip budget changed, refuting the claimed iff. -/
theorem done_lazy_wrap_counterexample :
    (ull_sync_done syncSkipMax true 1 0 0).loss = false ∧
    (ull_sync_done syncSkipMax true 1 0 0).sync.lll.skip_event ≠
      syncSkipMax.lll.skip_event ∧
    (ull_sync_done syncSkipMax true 1 0 0).force = 0 ∧
    (ull_sync_done syncSkipMax true 1 0 0).lazy = 0 ∧
    (ull_sync_done syncSkipMax true 1 0 0).sync.lll.skip_event + 1 ≠ 0 ∧
    (ull_sync_done syncSkipMax true 1 0 0).update_issued = false := by decide

/-- Claim C8 (amended): in every `ull_sync_done` invocation that does not
declare loss, `lazy` equals the post-update `(skip_event + 1) mod 2^16`
(the uint16 computation of the source, which wraps to 0 at
`skip_event = 65535`) when `force` is set or the skip budget changed during
the event, and is zero otherwise; the asynchronous ticker update is issued
iff at least one of drift-plus, drift-minus, lazy (the wrapped value),
force is non-zero. -/
theorem done_lazy_and_update_guard (s : SyncSet) (crc : Bool)
    (trx dp dm : Nat)
    (hnl : (ull_sync_done s crc trx dp dm).loss = false) :
    (((ull_sync_done s crc trx dp dm).force ≠ 0 ∨
      (ull_sync_done s crc trx dp dm).sync.lll.skip_event ≠
        s.lll.skip_event) →
     (ull_sync_done s crc trx dp dm).lazy =
       ((ull_sync_done s crc trx dp dm).sync.lll.skip_event + 1) % 65536) ∧
    ((ull_sync_done s crc trx dp dm).force = 0 ∧
     (ull_sync_done s crc trx dp dm).sync.lll.skip_event =
       s.lll.skip_event →
     (ull_sync_done s crc trx dp dm).lazy = 0) ∧
    ((ull_sync_done s crc trx dp dm).update_issued = true ↔
      ((ull_sync_done s crc trx dp dm).ticks_drift_plus ≠ 0 ∨
       (ull_sync_done s crc trx dp dm).ticks_drift_minus ≠ 0 ∨
       (ull_sync_done s crc trx dp dm).lazy ≠ 0 ∨
       (ull_sync_done s crc trx dp dm).force ≠ 0)) := by
  simp only [ull_sync_done] at hnl ⊢
  split_ifs at hnl ⊢ <;>
    simp_all [Bool.or_eq_true, bne_iff_ne, ne_eq] <;> omega

theorem done_lazy_and_update_guard_witness :
    ((ull_sync_done syncSample true 1 5 0).force = 0 ∧
     (ull_sync_done syncSample true 1 5 0).sync.lll.skip_event =
       syncSample.lll.skip_event →
     (ull_sync_done syncSample true 1 5 0).lazy = 0) ∧
    ((ull_sync_done syncSample true 1 5 0).update_issued = true ↔
      ((ull_sync_done syncSample true 1 5 0).ticks_drift_plus ≠ 0 ∨
       (ull_sync_done syncSample true 1 5 0).ticks_drift_minus ≠ 0 ∨
       (ull_sync_done syncSample true 1 5 0).lazy ≠ 0 ∨
       (ull_sync_done syncSample true 1 5 0).force ≠ 0)) :=
  ⟨(done_lazy_and_update_guard syncSample true 1 5 0 (by decide)).2.1,
   (done_lazy_and_update_guard syncSample true 1 5 0 (by decide)).2.2⟩
